import Mathlib

/-
Verification development for the Hinglish chat client (React frontend).
The session layer (messages, sendTextMessage, sendAudioMessage,
handleSocketMessage), the WebSocket connection lifecycle, and the voice
recorder (startRecording / stopRecording / getSupportedMimeType) are
embedded as pure Lean functions over explicit state, translated from the
source component files.
-/

namespace HinglishChat

/-! ## JSON string serialization (JSON.stringify on the envelope object)

The client sends `JSON.stringify({type, data, language, conversationMode})`.
We model the platform's `JSON.stringify` string-escaping algorithm
(ECMA-262 QuoteJSONString): `"` and `\` get two-character escapes, the
named control characters get `\b \t \n \f \r`, every other control
character below U+0020 gets a lowercase `\u00XX` escape, and all other
characters pass through verbatim.  Object keys keep insertion order. -/

/-- Lowercase hexadecimal digit for a nibble, as JS emits in `\u00XX`
escapes (codepoint 48 is `0`, codepoint 87 + 10 is `a`). -/
def lowercaseHexDigit (n : Nat) : Char :=
  if n < 10 then Char.ofNat (48 + n) else Char.ofNat (87 + n)

def escapeChar (c : Char) : List Char :=
  if c = '"' then ['\\', '"']
  else if c = '\\' then ['\\', '\\']
  else if c = '\x08' then ['\\', 'b']
  else if c = '\t' then ['\\', 't']
  else if c = '\n' then ['\\', 'n']
  else if c = '\x0c' then ['\\', 'f']
  else if c = '\r' then ['\\', 'r']
  else if c.toNat < 32 then
    let hi := lowercaseHexDigit (c.toNat / 16)
    let lo := lowercaseHexDigit (c.toNat % 16)
    ['\\', 'u', '0', '0', hi, lo]
  else [c]

def escapeString : List Char → List Char
  | [] => []
  | c :: cs => escapeChar c ++ escapeString cs

def quoteJsonString (s : String) : String :=
  "\"" ++ String.mk (escapeString s.toList) ++ "\""

/-- Serialization of the client wire envelope, exactly as built at the
`socketRef.current.send(JSON.stringify({...}))` call sites: the four keys
in insertion order `type`, `data`, `language`, `conversationMode`, all
values strings. -/
def stringifyEnvelope (typeV dataV langV modeV : String) : String :=
  "\x7b\"type\":" ++ quoteJsonString typeV ++
  ",\"data\":" ++ quoteJsonString dataV ++
  ",\"language\":" ++ quoteJsonString langV ++
  ",\"conversationMode\":" ++ quoteJsonString modeV ++ "\x7d"

/-! ## Base64 (FileReader.readAsDataURL data, after stripping the prefix)

`sendAudioMessage` converts the recorded blob to base64 with a
`FileReader` and strips the data-URL prefix; the remaining payload is the
standard base64 encoding of the blob bytes. -/

/-- Standard base64 alphabet, by sextet value: uppercase letters, then
lowercase letters, then digits, then `+` and `/`. -/
def base64Char (n : Nat) : Char :=
  if n < 26 then Char.ofNat (65 + n)
  else if n < 52 then Char.ofNat (97 + (n - 26))
  else if n < 62 then Char.ofNat (48 + (n - 52))
  else if n = 62 then '+'
  else '/'

def base64Chars : List Nat → List Char
  | [] => []
  | [b1] =>
      [base64Char (b1 / 4), base64Char (b1 % 4 * 16), '=', '=']
  | [b1, b2] =>
      [base64Char (b1 / 4), base64Char (b1 % 4 * 16 + b2 / 16),
       base64Char (b2 % 16 * 4), '=']
  | b1 :: b2 :: b3 :: rest =>
      base64Char (b1 / 4) :: base64Char (b1 % 4 * 16 + b2 / 16) ::
      base64Char (b2 % 16 * 4 + b3 / 64) :: base64Char (b3 % 64) ::
      base64Chars rest

def base64Encode (bytes : List Nat) : String := String.mk (base64Chars bytes)

/-! ## Session state (the chat page component)

State fields of the page component that the session claims touch:
`messages`, `inputText`, `isProcessing`, the socket ref together with its
`readyState`, `currentLanguage`, `conversationMode`, `audioEnabled`.  We
additionally record the list of payloads passed to `socket.send` (`sent`)
and to `playAudioResponse` (`played`) so that network and playback
effects are observable.  `Date.now()` is passed in as `now`. -/

inductive ReadyState : Type
  | CONNECTING
  | OPEN
  | CLOSING
  | CLOSED
deriving DecidableEq, Repr

/-- Transcript entry, mirroring the literal message objects built in the
component: `role` is the JS `type` field (`"user"`, `"ai"`, `"error"`);
fields a given object variant does not set are `none`. -/
structure Message : Type where
  id : Nat
  role : String
  text : Option String
  language : Option String
  audioBase64 : Option String
  ttsEngine : Option String
  timestamp : Nat
deriving DecidableEq, Repr

structure ChatState : Type where
  messages : List Message
  inputText : String
  isProcessing : Bool
  socket : Option ReadyState
  sent : List String
  played : List String
  currentLanguage : String
  conversationMode : String
  audioEnabled : Bool
deriving DecidableEq, Repr

def mkUserMessage (now : Nat) (text lang : String) : Message :=
  ⟨now, "user", some text, some lang, none, none, now⟩

/-- Whitespace recognizer backing the `text.trim()` guard (space, tab,
line feed, carriage return, vertical tab, form feed). -/
def isJsWhitespace (c : Char) : Bool :=
  c = ' ' || c = '\t' || c = '\n' || c = '\r' || c = '\x0b' || c = '\x0c'

/-- Truthiness of `!text.trim()`: the trimmed string is empty exactly
when every character is whitespace. -/
def isBlank (s : String) : Bool := s.toList.all isJsWhitespace

/-- Translation of `sendTextMessage` (chat page, lines 142-166): early
return when `!text.trim()` or the socket ref is null; otherwise append
the optimistic user message, clear the input, set `isProcessing`, and
send the JSON envelope when the socket is non-null and OPEN. -/
def sendTextMessage (now : Nat) (text : String) (st : ChatState) : ChatState :=
  if isBlank text || st.socket.isNone then st
  else
    let st1 : ChatState :=
      { st with
        messages := st.messages ++ [mkUserMessage now text st.currentLanguage],
        inputText := "",
        isProcessing := true }
    if st.socket = some ReadyState.OPEN then
      { st1 with
        sent := st1.sent ++
          [stringifyEnvelope "text" text st.currentLanguage st.conversationMode] }
    else st1

/-- Translation of `sendAudioMessage` (chat page, lines 169-189): early
return when the blob or the socket ref is null; otherwise set
`isProcessing` and, in the `FileReader` completion callback, send the
envelope with the base64-encoded blob bytes when the socket is non-null
and OPEN.  The asynchronous read is collapsed (the socket is not mutated
in between in this model); no user message is ever appended here. -/
def sendAudioMessage (audioBlob : Option (List Nat)) (st : ChatState) : ChatState :=
  if audioBlob.isNone || st.socket.isNone then st
  else
    let st1 : ChatState := { st with isProcessing := true }
    match audioBlob with
    | none => st1
    | some bytes =>
      if st.socket = some ReadyState.OPEN then
        { st1 with
          sent := st1.sent ++
            [stringifyEnvelope "audio" (base64Encode bytes)
              st.currentLanguage st.conversationMode] }
      else st1

/-- Parsed server payload as the handler reads it: each accessed property
of the `JSON.parse` result is either a string or absent (`none`). -/
structure IncomingMsg : Type where
  msgType : Option String
  response_text : Option String
  detected_language : Option String
  audio_response : Option String
  tts_engine : Option String
  message : Option String
deriving DecidableEq, Repr

/-- Translation of `handleSocketMessage` (chat page, lines 106-139).  The
first statement is `JSON.parse(data)` with no surrounding try/catch: we
model the parse outcome as an `Except` argument, and a parse failure
(`SyntaxError` thrown) propagates as `Except.error` — the handler body
never runs, so no state change occurs.  On success: an `ai` message is
appended for `audio_response`/`text_response` (with autoplay when
`audioEnabled` and the payload is a truthy string), an `error` message
for `type === error` (interpolating `undefined` for a missing field like
the JS template literal), and `isProcessing` is cleared in every case. -/
def handleSocketMessage (now : Nat) (parsed : Except String IncomingMsg)
    (st : ChatState) : Except String ChatState :=
  match parsed with
  | Except.error e => Except.error e
  | Except.ok m =>
    if m.msgType = some "audio_response" ∨ m.msgType = some "text_response" then
      let newMsg : Message :=
        ⟨now, "ai", m.response_text, m.detected_language, m.audio_response,
          m.tts_engine, now⟩
      let st1 : ChatState := { st with messages := st.messages ++ [newMsg] }
      let st2 : ChatState :=
        match m.audio_response with
        | some a =>
          if st.audioEnabled ∧ a ≠ "" then { st1 with played := st1.played ++ [a] }
          else st1
        | none => st1
      Except.ok { st2 with isProcessing := false }
    else if m.msgType = some "error" then
      let errMsg : Message :=
        ⟨now, "error", some ("Error: " ++ m.message.getD "undefined"),
          none, none, none, now⟩
      Except.ok { st with messages := st.messages ++ [errMsg], isProcessing := false }
    else
      Except.ok { st with isProcessing := false }

/-- Disabled predicate of the send button: `!inputText.trim() || isProcessing`. -/
def sendButtonDisabled (st : ChatState) : Bool :=
  isBlank st.inputText || st.isProcessing

/-- Disabled predicate of the input textarea: `disabled=\x7bisProcessing\x7d`. -/
def textareaDisabled (st : ChatState) : Bool := st.isProcessing

/-! ## Connection lifecycle (the WebSocket effect, chat page lines 52-98)

`connectionStatus` is the string state variable; `reconnectTimers`
records the delays (ms) of the pending `setTimeout(connectWebSocket, 3000)`
calls; `socketExists` tracks the socket ref.  The handlers installed by
`connectWebSocket` are translated one-to-one; note that the `onclose`
handler is the same closure however the close came about — the source
carries no user-initiated-close flag. -/

structure ConnState : Type where
  connectionStatus : String
  reconnectTimers : List Nat
  socketExists : Bool
deriving DecidableEq, Repr

/-- Translation of `connectWebSocket`: sets status `connecting`, then
constructs the WebSocket inside `try`; when the constructor throws
(`ctorOk = false`) the catch sets `disconnected` and schedules another
`connectWebSocket` after 3000 ms. -/
def connectWebSocket (ctorOk : Bool) (st : ConnState) : ConnState :=
  if ctorOk then { st with connectionStatus := "connecting", socketExists := true }
  else
    { st with
      connectionStatus := "disconnected",
      reconnectTimers := st.reconnectTimers ++ [3000] }

/-- Translation of the `onopen` handler. -/
def onSocketOpen (st : ConnState) : ConnState :=
  { st with connectionStatus := "connected" }

/-- Translation of the `onclose` handler: status `disconnected` and an
unconditional `setTimeout(connectWebSocket, 3000)`. -/
def onSocketClose (st : ConnState) : ConnState :=
  { st with
    connectionStatus := "disconnected",
    reconnectTimers := st.reconnectTimers ++ [3000] }

/-- Translation of the `onerror` handler: status `disconnected` (no timer
is scheduled here; the browser fires `onclose` afterwards). -/
def onSocketError (st : ConnState) : ConnState :=
  { st with connectionStatus := "disconnected" }

/-- Connection events.  `userClose` is the effect-cleanup call
`socketRef.current.close()`: it changes no component state itself; the
transport then fires the ordinary `closed` event asynchronously. -/
inductive ConnEvent : Type
  | connect (ctorOk : Bool)
  | opened
  | closed
  | errored
  | userClose
deriving DecidableEq, Repr

def connStep (st : ConnState) (e : ConnEvent) : ConnState :=
  match e with
  | ConnEvent.connect ctorOk => connectWebSocket ctorOk st
  | ConnEvent.opened => onSocketOpen st
  | ConnEvent.closed => onSocketClose st
  | ConnEvent.errored => onSocketError st
  | ConnEvent.userClose => st

def connRun (st : ConnState) (es : List ConnEvent) : ConnState :=
  es.foldl connStep st

def connInit : ConnState := ⟨"disconnected", [], false⟩

/-! ## Voice recorder (VoiceRecorder component)

Resource-counting state for one recorder instance: live device streams,
open audio contexts, the pending animation frame and the one-second
interval timer, plus the buffered data chunks and the negotiated mime
type. -/

structure RecState : Type where
  isRecording : Bool
  recorderActive : Bool
  audioChunks : List (List Nat)
  mimeType : Option String
  activeStreams : Nat
  openAudioContexts : Nat
  animationFramePending : Bool
  intervalActive : Bool
  recordingTime : Nat
  audioLevel : Nat
deriving DecidableEq, Repr

/-- Translation of `getSupportedMimeType` (VoiceRecorder lines 134-148):
walk the fixed preference list and return the first type the platform
reports as supported, falling back to `audio/webm`. -/
def firstSupportedType (isTypeSupported : String → Bool) : List String → String
  | [] => "audio/webm"
  | t :: ts => if isTypeSupported t then t else firstSupportedType isTypeSupported ts

def mimeTypePreferenceList : List String :=
  ["audio/webm;codecs=opus", "audio/webm", "audio/mp4", "audio/wav"]

def getSupportedMimeType (isTypeSupported : String → Bool) : String :=
  firstSupportedType isTypeSupported mimeTypePreferenceList

/-- Translation of `startRecording` (VoiceRecorder lines 43-125): early
return without permission or while disabled; on `getUserMedia` failure
the catch alerts and acquires nothing; otherwise acquire the stream and
audio context, start the level animation loop, create the recorder with
the negotiated mime type, reset the chunk buffer, start recording and the
one-second timer. -/
def startRecording (hasPermission disabled getUserMediaOk : Bool)
    (isTypeSupported : String → Bool) (st : RecState) : RecState :=
  if ¬hasPermission ∨ disabled then st
  else if ¬getUserMediaOk then st
  else
    { st with
      activeStreams := st.activeStreams + 1,
      openAudioContexts := st.openAudioContexts + 1,
      animationFramePending := true,
      recorderActive := true,
      mimeType := some (getSupportedMimeType isTypeSupported),
      audioChunks := [],
      isRecording := true,
      intervalActive := true }

/-- Translation of the `ondataavailable` handler: buffer the chunk when
its size is positive. -/
def onDataAvailable (chunk : List Nat) (st : RecState) : RecState :=
  if chunk.length > 0 then { st with audioChunks := st.audioChunks ++ [chunk] } else st

/-- Translation of `stopRecording` (VoiceRecorder lines 127-132): when a
recorder exists and recording is in progress, request `recorder.stop()`
(the Bool result) and clear `isRecording`; otherwise do nothing. -/
def stopRecording (st : RecState) : RecState × Bool :=
  if st.recorderActive ∧ st.isRecording then
    ({ st with isRecording := false }, true)
  else (st, false)

/-- Translation of the recorder `onstop` handler (VoiceRecorder lines
92-110): concatenate the buffered chunks into one blob handed to
`onRecordingComplete` together with the negotiated mime type, then stop
the stream tracks, close the audio context, cancel the animation frame
and the interval, and reset the level and the timer display. -/
def onRecorderStop (st : RecState) : RecState × (List Nat × Option String) :=
  ({ st with
      activeStreams := st.activeStreams - 1,
      openAudioContexts := st.openAudioContexts - 1,
      animationFramePending := false,
      intervalActive := false,
      audioLevel := 0,
      recordingTime := 0,
      recorderActive := false },
   (st.audioChunks.foldr (fun a b => a ++ b) [], st.mimeType))

/-! ## Decoding the client wire envelope

The component only encodes the client envelope; the party that decodes it
is the backend service, which is not part of the frontend sources.  The
decoder below is therefore written against the spec, not against code. -/

def hexVal (c : Char) : Option Nat :=
  if '0' ≤ c ∧ c ≤ '9' then some (c.toNat - 48)
  else if 'a' ≤ c ∧ c ≤ 'f' then some (c.toNat - 87)
  else if 'A' ≤ c ∧ c ≤ 'F' then some (c.toNat - 55)
  else none

def unescapeChar (c : Char) : Option Char :=
  if c = '"' then some '"'
  else if c = '\\' then some '\\'
  else if c = '/' then some '/'
  else if c = 'b' then some '\x08'
  else if c = 't' then some '\t'
  else if c = 'n' then some '\n'
  else if c = 'f' then some '\x0c'
  else if c = 'r' then some '\r'
  else none

/-- Read a JSON string body up to and including its closing quote,
returning the unescaped content and the rest of the input; fail on
unterminated or ill-escaped input. -/
def readJsonString : List Char → Option (List Char × List Char)
  | [] => none
  | c :: rest =>
    if c = '"' then some ([], rest)
    else if c = '\\' then
      match rest with
      | [] => none
      | e :: rest2 =>
        if e = 'u' then
          match rest2 with
          | h1 :: h2 :: h3 :: h4 :: rest3 =>
            match hexVal h1, hexVal h2, hexVal h3, hexVal h4 with
            | some a, some b, some c2, some d =>
              (readJsonString rest3).map
                (fun p => (Char.ofNat (((a * 16 + b) * 16 + c2) * 16 + d) :: p.1, p.2))
            | _, _, _, _ => none
          | _ => none
        else
          match unescapeChar e with
          | some u => (readJsonString rest2).map (fun p => (u :: p.1, p.2))
          | none => none
    else (readJsonString rest).map (fun p => (c :: p.1, p.2))

/-- Expect a literal character sequence and return the remaining input. -/
def expectLit : List Char → List Char → Option (List Char)
  | [], input => some input
  | _ :: _, [] => none
  | c :: cs, d :: ds => if c = d then expectLit cs ds else none

/-- Expect a literal ending in an opening quote, then read the quoted
string value. -/
def parseField (lit input : List Char) : Option (List Char × List Char) :=
  match expectLit lit input with
  | none => none
  | some r => readJsonString r

/-- Modelled from the spec: the server-side decode of the client wire
envelope is performed by the backend service, which is not among the
frontend sources; per §4.3 (`decode(bytes)`) and §6 the envelope is the
JSON object `\x7btype, data, language, conversationMode\x7d` with string
values, so the decoder parses exactly that object and yields its four
fields. -/
def parseEnvelope (s : String) : Option (String × String × String × String) :=
  match parseField "\x7b\"type\":\"".toList s.toList with
  | none => none
  | some (tv, r1) =>
    match parseField ",\"data\":\"".toList r1 with
    | none => none
    | some (dv, r2) =>
      match parseField ",\"language\":\"".toList r2 with
      | none => none
      | some (lv, r3) =>
        match parseField ",\"conversationMode\":\"".toList r3 with
        | none => none
        | some (mv, r4) =>
          if r4 = ['\x7d'] then
            some (String.mk tv, String.mk dv, String.mk lv, String.mk mv)
          else none

/-! ## Turn payloads and composed capture scenario -/

/-- Payload of a user turn: text, or the recorded audio clip bytes. -/
inductive TurnPayload : Type
  | text (t : String)
  | audio (clip : List Nat)
deriving DecidableEq, Repr

/-- Wire encoding of a turn, as performed at the two `send` call sites:
a text turn is sent verbatim, an audio turn is sent as the base64 of the
clip bytes, both inside the four-field envelope. -/
def encodeTurn (p : TurnPayload) (lang mode : String) : String :=
  match p with
  | TurnPayload.text t => stringifyEnvelope "text" t lang mode
  | TurnPayload.audio clip => stringifyEnvelope "audio" (base64Encode clip) lang mode

/-- One capture session: a successful `startRecording` (permission
granted, not disabled, device acquired) followed by the given
`ondataavailable` events. -/
def captureSession (f : String → Bool) (chunks : List (List Nat))
    (st0 : RecState) : RecState :=
  chunks.foldl (fun s c => onDataAvailable c s) (startRecording true false true f st0)

/-! ## Concrete states used by counterexamples and witnesses -/

def exampleOpenState : ChatState :=
  ⟨[], "", false, some ReadyState.OPEN, [], [], "en", "guidance_counselor", true⟩

def busyState : ChatState :=
  ⟨[mkUserMessage 0 "first" "en"], "", true, some ReadyState.OPEN,
    [stringifyEnvelope "text" "first" "en" "guidance_counselor"], [],
    "en", "guidance_counselor", true⟩

def closedSocketState : ChatState :=
  ⟨[], "hello", false, some ReadyState.CLOSED, [], [], "en",
    "guidance_counselor", true⟩

/-! ### Round-trip lemmas for the codec -/

theorem expectLit_append (lit rest : List Char) :
    expectLit lit (lit ++ rest) = some rest := by
  induction lit with
  | nil => rfl
  | cons c cs ih => simp [expectLit, ih]

theorem hexVal_lowercaseHexDigit (n : Nat) (h : n < 16) :
    hexVal (lowercaseHexDigit n) = some n := by
  interval_cases n <;> decide

theorem readJsonString_escapeString (s rest : List Char) :
    readJsonString (escapeString s ++ '"' :: rest) = some (s, rest) := by
  induction s with
  | nil =>
    simp only [escapeString, List.nil_append]
    rw [readJsonString.eq_def]
    simp
  | cons c cs ih =>
    rw [show escapeString (c :: cs) = escapeChar c ++ escapeString cs from rfl,
      List.append_assoc]
    by_cases h1 : c = '"'
    · subst h1
      rw [show escapeChar '"' = ['\\', '"'] by decide, List.cons_append,
        List.cons_append, List.nil_append, readJsonString.eq_def]
      simp [unescapeChar, ih]
    · by_cases h2 : c = '\\'
      · subst h2
        rw [show escapeChar '\\' = ['\\', '\\'] by decide, List.cons_append,
          List.cons_append, List.nil_append, readJsonString.eq_def]
        simp [unescapeChar, ih]
      · by_cases h3 : c = '\x08'
        · subst h3
          rw [show escapeChar '\x08' = ['\\', 'b'] by decide, List.cons_append,
            List.cons_append, List.nil_append, readJsonString.eq_def]
          simp [unescapeChar, ih]
        · by_cases h4 : c = '\t'
          · subst h4
            rw [show escapeChar '\t' = ['\\', 't'] by decide, List.cons_append,
              List.cons_append, List.nil_append, readJsonString.eq_def]
            simp [unescapeChar, ih]
          · by_cases h5 : c = '\n'
            · subst h5
              rw [show escapeChar '\n' = ['\\', 'n'] by decide, List.cons_append,
                List.cons_append, List.nil_append, readJsonString.eq_def]
              simp [unescapeChar, ih]
            · by_cases h6 : c = '\x0c'
              · subst h6
                rw [show escapeChar '\x0c' = ['\\', 'f'] by decide, List.cons_append,
                  List.cons_append, List.nil_append, readJsonString.eq_def]
                simp [unescapeChar, ih]
              · by_cases h7 : c = '\r'
                · subst h7
                  rw [show escapeChar '\r' = ['\\', 'r'] by decide, List.cons_append,
                    List.cons_append, List.nil_append, readJsonString.eq_def]
                  simp [unescapeChar, ih]
                · by_cases h8 : c.toNat < 32
                  · have hdiv : c.toNat / 16 < 16 := by omega
                    have hmod : c.toNat % 16 < 16 := Nat.mod_lt _ (by omega)
                    have h0 : hexVal '0' = some 0 := by decide
                    have hesc : escapeChar c =
                        ['\\', 'u', '0', '0', lowercaseHexDigit (c.toNat / 16),
                          lowercaseHexDigit (c.toNat % 16)] := by
                      simp [escapeChar, h1, h2, h3, h4, h5, h6, h7, h8]
                    rw [hesc]
                    simp only [List.cons_append, List.nil_append]
                    rw [readJsonString.eq_def]
                    simp [h0, hexVal_lowercaseHexDigit _ hdiv,
                      hexVal_lowercaseHexDigit _ hmod, ih]
                    rw [show c.toNat / 16 * 16 + c.toNat % 16 = c.toNat from by omega,
                      Char.ofNat_toNat]
                  · have hesc : escapeChar c = [c] := by
                      simp [escapeChar, h1, h2, h3, h4, h5, h6, h7, h8]
                    rw [hesc]
                    simp only [List.cons_append, List.nil_append]
                    rw [readJsonString.eq_def]
                    simp [h1, h2, ih]

theorem parseField_append (lit s rest : List Char) :
    parseField lit (lit ++ (escapeString s ++ '"' :: rest)) = some (s, rest) := by
  simp [parseField, expectLit_append, readJsonString_escapeString]

theorem parseEnvelope_stringifyEnvelope (tv dv lv mv : String) :
    parseEnvelope (stringifyEnvelope tv dv lv mv) = some (tv, dv, lv, mv) := by
  simp [parseEnvelope, stringifyEnvelope, quoteJsonString, parseField, expectLit,
    readJsonString_escapeString]

/-! ## Claims -/

/-- C1 counterexample: while a previous turn is still pending
(`busyState.isProcessing = true`), a further `sendTextMessage` call is
not rejected: it appends a new user Message and performs another network
send, contradicting the claimed synchronous Busy rejection. -/
theorem c1_counterexample :
    busyState.isProcessing = true ∧
    (sendTextMessage 1 "second" busyState).messages.length
      = busyState.messages.length + 1 ∧
    (sendTextMessage 1 "second" busyState).sent.length
      = busyState.sent.length + 1 := by
  refine ⟨rfl, ?_, ?_⟩ <;> rfl

/-- C1 (amended): a submission made while a previous turn is still
pending is not rejected at the `sendTextMessage` boundary — it appends a
new user Message and sends on the wire, leaving the processing flag set;
the single-flight discipline exists only as UI gating (the send button
and the textarea are disabled while `isProcessing`). -/
theorem c1_amended (st : ChatState) (now : Nat) (t : String)
    (hp : st.isProcessing = true) (hs : st.socket = some ReadyState.OPEN)
    (ht : isBlank t = false) :
    (sendTextMessage now t st).messages
      = st.messages ++ [mkUserMessage now t st.currentLanguage] ∧
    (sendTextMessage now t st).sent
      = st.sent ++ [stringifyEnvelope "text" t st.currentLanguage st.conversationMode] ∧
    (sendTextMessage now t st).isProcessing = true ∧
    sendButtonDisabled st = true ∧
    textareaDisabled st = true := by
  refine ⟨?_, ?_, ?_, ?_, ?_⟩ <;>
    simp [sendTextMessage, sendButtonDisabled, textareaDisabled, hp, hs, ht]

/-- C1 witness: the amended theorem applied at a concrete busy state. -/
theorem c1_witness :
    (sendTextMessage 1 "second" busyState).sent
      = busyState.sent ++
        [stringifyEnvelope "text" "second" busyState.currentLanguage
          busyState.conversationMode] :=
  (c1_amended busyState 1 "second" rfl rfl (by decide)).2.1

/-- C2 counterexample: an audio submission goes out on the wire yet
emits no user-role Message at all — the transcript is unchanged —
contradicting the claim that every submission produces an optimistic
user echo. -/
theorem c2_counterexample :
    (sendAudioMessage (some [1, 2, 3]) exampleOpenState).messages = [] ∧
    (sendAudioMessage (some [1, 2, 3]) exampleOpenState).sent.length = 1 := by
  exact ⟨rfl, rfl⟩

/-- C2 (amended): only text submissions emit a user-role Message, and
they do so at submit time whenever the guard passes, before and
independently of any network confirmation; audio submissions emit no
user Message; and every transcript update (text submit, audio submit,
successful incoming-message handling) only appends, so submission order
is preserved and a turn's user Message precedes its later response
Message. -/
theorem c2_amended :
    (∀ st now t, isBlank t = false → st.socket ≠ none →
      (sendTextMessage now t st).messages
        = st.messages ++ [mkUserMessage now t st.currentLanguage]) ∧
    (∀ st blob, (sendAudioMessage blob st).messages = st.messages) ∧
    (∀ st now parsed st', handleSocketMessage now parsed st = Except.ok st' →
      ∃ tail, st'.messages = st.messages ++ tail) := by
  refine ⟨?_, ?_, ?_⟩
  · intro st now t ht hs
    rw [Option.ne_none_iff_exists'] at hs
    obtain ⟨rs, hrs⟩ := hs
    by_cases ho : rs = ReadyState.OPEN <;>
      simp [sendTextMessage, ht, hrs, ho]
  · intro st blob
    cases blob with
    | none => rfl
    | some bytes =>
      cases hn : st.socket with
      | none => simp [sendAudioMessage, hn]
      | some rs =>
        by_cases ho : rs = ReadyState.OPEN <;>
          simp [sendAudioMessage, hn, ho]
  · intro st now parsed st' h
    cases parsed with
    | error e => simp [handleSocketMessage] at h
    | ok m =>
      by_cases h1 : m.msgType = some "audio_response" ∨ m.msgType = some "text_response"
      · cases ham : m.audio_response with
        | some a =>
          by_cases hcond : st.audioEnabled = true ∧ a ≠ ""
          · refine ⟨[⟨now, "ai", m.response_text, m.detected_language, some a,
              m.tts_engine, now⟩], ?_⟩
            simp [handleSocketMessage, h1, ham, hcond] at h
            subst h
            simp
          · refine ⟨[⟨now, "ai", m.response_text, m.detected_language, some a,
              m.tts_engine, now⟩], ?_⟩
            simp [handleSocketMessage, h1, ham, hcond] at h
            subst h
            simp
        | none =>
          refine ⟨[⟨now, "ai", m.response_text, m.detected_language, none,
            m.tts_engine, now⟩], ?_⟩
          simp [handleSocketMessage, h1, ham] at h
          subst h
          simp
      · by_cases h2 : m.msgType = some "error"
        · refine ⟨[⟨now, "error", some ("Error: " ++ m.message.getD "undefined"),
            none, none, none, now⟩], ?_⟩
          simp [handleSocketMessage, h1, h2] at h
          subst h
          simp
        · refine ⟨[], ?_⟩
          simp [handleSocketMessage, h1, h2] at h
          subst h
          simp

/-- C2 witness: the amended theorem's text-submission clause at a
concrete open state. -/
theorem c2_witness :
    (sendTextMessage 2 "hello" exampleOpenState).messages
      = exampleOpenState.messages ++
        [mkUserMessage 2 "hello" exampleOpenState.currentLanguage] :=
  c2_amended.1 exampleOpenState 2 "hello" (by decide) (by decide)

/-- C3 counterexample: after `open()` succeeds, the user-initiated
`close()` and the transport-close event it causes leave the machine with
a scheduled 3000 ms reconnection — auto-reconnect is not suppressed and
`disconnected` is not terminal. -/
theorem c3_counterexample :
    connRun connInit
        [ConnEvent.connect true, ConnEvent.opened, ConnEvent.userClose,
          ConnEvent.closed]
      = ⟨"disconnected", [3000], true⟩ ∧
    ([3000] : List Nat) ≠ [] := by
  exact ⟨rfl, by decide⟩

/-- C3 (amended): whenever the transport close event fires — whatever
caused the drop, including a user-initiated `close()` — the state
becomes `disconnected` and exactly one reconnection attempt
(`connectWebSocket`) is scheduled after the fixed 3000 ms delay, which
re-enters `connecting` when it runs; the source has no mechanism that
suppresses auto-reconnect after a user-initiated `close()`. -/
theorem c3_amended (st : ConnState) :
    (connStep st ConnEvent.closed).connectionStatus = "disconnected" ∧
    (connStep st ConnEvent.closed).reconnectTimers = st.reconnectTimers ++ [3000] ∧
    connStep st ConnEvent.userClose = st ∧
    (connStep st (ConnEvent.connect true)).connectionStatus = "connecting" := by
  refine ⟨rfl, rfl, rfl, rfl⟩

/-- C4 counterexample: with a non-open socket, `sendTextMessage` indeed
sends nothing, but the only appended transcript entry is the user
Message (no error-role Message) and `isProcessing` is left `true` — the
turn stays pending, contradicting the claim. -/
theorem c4_counterexample :
    (sendTextMessage 5 "hello" closedSocketState).sent = [] ∧
    ((sendTextMessage 5 "hello" closedSocketState).messages.map Message.role)
      = ["user"] ∧
    (sendTextMessage 5 "hello" closedSocketState).isProcessing = true := by
  refine ⟨rfl, rfl, rfl⟩

/-- C4 (amended): if the socket reference is non-null but the connection
is not open when `sendTextMessage` is called with non-blank text, no
network send occurs, but no error Message is appended (only the
optimistic user Message) and `isProcessing` is left `true`, so the turn
remains pending. -/
theorem c4_amended (st : ChatState) (now : Nat) (t : String) (rs : ReadyState)
    (hs : st.socket = some rs) (ho : rs ≠ ReadyState.OPEN)
    (ht : isBlank t = false) :
    (sendTextMessage now t st).sent = st.sent ∧
    (sendTextMessage now t st).messages
      = st.messages ++ [mkUserMessage now t st.currentLanguage] ∧
    (sendTextMessage now t st).isProcessing = true := by
  refine ⟨?_, ?_, ?_⟩ <;> simp [sendTextMessage, hs, ho, ht]

/-- C4 witness: the amended theorem at a concrete closed-socket state. -/
theorem c4_witness :
    (sendTextMessage 5 "hello" closedSocketState).sent = closedSocketState.sent :=
  (c4_amended closedSocketState 5 "hello" ReadyState.CLOSED rfl (by decide)
    (by decide)).1

/-- C5 counterexample: a malformed payload (one on which `JSON.parse`
throws a SyntaxError) makes `handleSocketMessage` propagate the thrown
exception unchanged — no `MalformedMessage` error value is produced, no
state update happens, and no error Message is rendered. -/
theorem c5_counterexample :
    handleSocketMessage 7 (Except.error "SyntaxError: Unexpected token")
        exampleOpenState
      = Except.error "SyntaxError: Unexpected token" := rfl

/-- C5 (amended): for a malformed payload, `JSON.parse` throws and
`handleSocketMessage` has no try/catch, so the exception propagates
unchecked to the caller: the handler produces no `MalformedMessage`
value, renders no error Message, and leaves all state untouched. -/
theorem c5_amended (now : Nat) (e : String) (st : ChatState) :
    handleSocketMessage now (Except.error e) st = Except.error e := rfl

/-- C6: with the connection open, a text submission puts exactly the
four-field JSON envelope on the wire, and in particular submitting
"hello" with language "en" and mode "guidance_counselor" sends the
literal envelope bytes. -/
theorem c6_wire_envelope (st : ChatState) (now : Nat) (t : String)
    (hs : st.socket = some ReadyState.OPEN) (ht : isBlank t = false) :
    (sendTextMessage now t st).sent
      = st.sent ++
        [stringifyEnvelope "text" t st.currentLanguage st.conversationMode] ∧
    stringifyEnvelope "text" "hello" "en" "guidance_counselor"
      = "\x7b\"type\":\"text\",\"data\":\"hello\",\"language\":\"en\",\"conversationMode\":\"guidance_counselor\"\x7d" := by
  constructor
  · simp [sendTextMessage, ht, hs]
  · rfl

/-- C6 witness: the wire-envelope theorem at a concrete open state. -/
theorem c6_witness :
    (sendTextMessage 3 "hello" exampleOpenState).sent
      = exampleOpenState.sent ++
        [stringifyEnvelope "text" "hello" exampleOpenState.currentLanguage
          exampleOpenState.conversationMode] :=
  (c6_wire_envelope exampleOpenState 3 "hello" rfl (by decide)).1

/-- C7: codec round trip — decoding the encoded wire envelope of any
turn, text or audio, recovers the envelope's type, data (text, or the
base64 of the clip bytes), language and conversationMode fields
unchanged.  The decoder is modelled from the spec because the party that
decodes the client envelope is the backend service, which is not among
the frontend sources. -/
theorem c7_roundtrip (p : TurnPayload) (lang mode : String) :
    parseEnvelope (encodeTurn p lang mode)
      = some (match p with
          | TurnPayload.text t => ("text", t, lang, mode)
          | TurnPayload.audio clip => ("audio", base64Encode clip, lang, mode)) := by
  cases p <;> simp [encodeTurn, parseEnvelope_stringifyEnvelope]

/-- C8: for every capability predicate, the negotiation returns the
first supported entry of the fixed preference list, and the fallback
"audio/webm" when none of the four entries is supported. -/
theorem c8_mime_negotiation (isTypeSupported : String → Bool) :
    getSupportedMimeType isTypeSupported
      = (mimeTypePreferenceList.find? isTypeSupported).getD "audio/webm" := by
  cases h1 : isTypeSupported "audio/webm;codecs=opus" <;>
  cases h2 : isTypeSupported "audio/webm" <;>
  cases h3 : isTypeSupported "audio/mp4" <;>
  cases h4 : isTypeSupported "audio/wav" <;>
    simp [getSupportedMimeType, mimeTypePreferenceList, firstSupportedType,
      List.find?, h1, h2, h3, h4]

/-- Buffering events do not touch any recorder field other than the
chunk buffer. -/
theorem foldl_onData_preserves (chunks : List (List Nat)) (st : RecState) :
    (chunks.foldl (fun s c => onDataAvailable c s) st).isRecording = st.isRecording ∧
    (chunks.foldl (fun s c => onDataAvailable c s) st).recorderActive = st.recorderActive ∧
    (chunks.foldl (fun s c => onDataAvailable c s) st).mimeType = st.mimeType ∧
    (chunks.foldl (fun s c => onDataAvailable c s) st).activeStreams = st.activeStreams ∧
    (chunks.foldl (fun s c => onDataAvailable c s) st).openAudioContexts = st.openAudioContexts ∧
    (chunks.foldl (fun s c => onDataAvailable c s) st).animationFramePending = st.animationFramePending ∧
    (chunks.foldl (fun s c => onDataAvailable c s) st).intervalActive = st.intervalActive := by
  induction chunks generalizing st with
  | nil => exact ⟨rfl, rfl, rfl, rfl, rfl, rfl, rfl⟩
  | cons c cs ih =>
    obtain ⟨a1, a2, a3, a4, a5, a6, a7⟩ := ih (onDataAvailable c st)
    rw [List.foldl_cons]
    refine ⟨a1.trans ?_, a2.trans ?_, a3.trans ?_, a4.trans ?_, a5.trans ?_,
      a6.trans ?_, a7.trans ?_⟩ <;>
      (unfold onDataAvailable; split <;> rfl)

/-- The chunk buffer after a capture session holds exactly the nonempty
data chunks, in arrival order, appended to whatever was buffered
before. -/
theorem foldl_onData_chunks (chunks : List (List Nat)) (st : RecState) :
    (chunks.foldl (fun s c => onDataAvailable c s) st).audioChunks
      = st.audioChunks ++ chunks.filter (fun c => 0 < c.length) := by
  induction chunks generalizing st with
  | nil => simp
  | cons c cs ih =>
    rw [List.foldl_cons, ih]
    by_cases h : 0 < c.length
    · simp [onDataAvailable, h, List.filter_cons]
    · simp [onDataAvailable, h, List.filter_cons]

/-- C9: after a capture session, `stopRecording` requests the recorder
stop and the `onstop` handler releases every acquired resource exactly
once — the device stream, the audio context, the animation frame and the
interval all return to their pre-session baseline — a second
`stopRecording` is a no-op, and the buffered chunks are concatenated
into a single clip handed to the completion callback together with the
negotiated mime type.  This also covers `stopRecording` invoked
immediately after `startRecording` (the event list empty, the clip
empty). -/
theorem c9_stop_releases (f : String → Bool) (chunks : List (List Nat))
    (st0 : RecState) :
    (stopRecording (captureSession f chunks st0)).2 = true ∧
    (onRecorderStop (stopRecording (captureSession f chunks st0)).1).1.activeStreams
      = st0.activeStreams ∧
    (onRecorderStop (stopRecording (captureSession f chunks st0)).1).1.openAudioContexts
      = st0.openAudioContexts ∧
    (onRecorderStop (stopRecording (captureSession f chunks st0)).1).1.animationFramePending
      = false ∧
    (onRecorderStop (stopRecording (captureSession f chunks st0)).1).1.intervalActive
      = false ∧
    stopRecording (onRecorderStop (stopRecording (captureSession f chunks st0)).1).1
      = ((onRecorderStop (stopRecording (captureSession f chunks st0)).1).1, false) ∧
    (onRecorderStop (stopRecording (captureSession f chunks st0)).1).2
      = ((captureSession f chunks st0).audioChunks.foldr (fun a b => a ++ b) [],
          some (getSupportedMimeType f)) ∧
    (captureSession f chunks st0).audioChunks
      = chunks.filter (fun c => 0 < c.length) := by
  obtain ⟨p1, p2, p3, p4, p5, p6, p7⟩ :=
    foldl_onData_preserves chunks (startRecording true false true f st0)
  have hch := foldl_onData_chunks chunks (startRecording true false true f st0)
  have e1 : (startRecording true false true f st0).isRecording = true := by
    simp [startRecording]
  have e2 : (startRecording true false true f st0).recorderActive = true := by
    simp [startRecording]
  have e3 : (startRecording true false true f st0).mimeType
      = some (getSupportedMimeType f) := by
    simp [startRecording]
  have e4 : (startRecording true false true f st0).activeStreams
      = st0.activeStreams + 1 := by
    simp [startRecording]
  have e5 : (startRecording true false true f st0).openAudioContexts
      = st0.openAudioContexts + 1 := by
    simp [startRecording]
  have e6 : (startRecording true false true f st0).audioChunks = [] := by
    simp [startRecording]
  have hrec : (captureSession f chunks st0).recorderActive = true := by
    rw [captureSession]; exact p2.trans e2
  have hiso : (captureSession f chunks st0).isRecording = true := by
    rw [captureSession]; exact p1.trans e1
  have hstop : stopRecording (captureSession f chunks st0)
      = ({ captureSession f chunks st0 with isRecording := false }, true) := by
    unfold stopRecording
    rw [if_pos ⟨hrec, hiso⟩]
  refine ⟨by rw [hstop], ?_, ?_, ?_, ?_, ?_, ?_, ?_⟩
  · rw [hstop]
    show (captureSession f chunks st0).activeStreams - 1 = st0.activeStreams
    rw [captureSession, p4, e4]
    omega
  · rw [hstop]
    show (captureSession f chunks st0).openAudioContexts - 1 = st0.openAudioContexts
    rw [captureSession, p5, e5]
    omega
  · rw [hstop]; rfl
  · rw [hstop]; rfl
  · rw [hstop]
    simp [onRecorderStop, stopRecording]
  · rw [hstop]
    show ((captureSession f chunks st0).audioChunks.foldr (fun a b => a ++ b) [],
        (captureSession f chunks st0).mimeType) = _
    rw [captureSession, p3, e3]
  · rw [captureSession, hch, e6]
    simp

/-- C10: `sendTextMessage` with blank (empty or whitespace-only) text or
a null socket reference is a complete no-op: the state, including the
transcript, the input text, the processing flag and the send log, is
returned unchanged. -/
theorem c10_noop (st : ChatState) (now : Nat) (t : String)
    (h : isBlank t = true ∨ st.socket = none) :
    sendTextMessage now t st = st := by
  rcases h with h | h <;> simp [sendTextMessage, h]

/-- C10 witness: the no-op theorem on whitespace-only input at a
concrete open state. -/
theorem c10_witness : sendTextMessage 0 "   " exampleOpenState = exampleOpenState :=
  c10_noop exampleOpenState 0 "   " (Or.inl (by decide))

end HinglishChat
